import Mathlib

/-!
Shallow embedding of the spaced-repetition vocabulary backend
(`src/server.js`, with the `src/unnamed/part_001` variant where it
differs). Timestamps are naturals counting milliseconds, matching the
JavaScript `Date.now()` arithmetic of the source. The Mongo collection
is a list of records in insertion order; `findOne` is the first match,
`save` of an existing document replaces it in place, `save` of a new
document appends.
-/

namespace IdentityBackend

/-- Milliseconds in one day, as written in the source:
`24 * 60 * 60 * 1000`. -/
def dayMs : Nat := 24 * 60 * 60 * 1000

/-- One persisted word document, after `wordSchema` in `src/server.js`
(lines 18-28). The free-text attributes are `Option String` because the
JavaScript fields can be `undefined`. Schema defaults (`timesSeenCount`
1, the three dates `Date.now`) are applied in `mkNewWord`. -/
structure WordRecord where
  userId : String
  english : String
  translation : Option String
  pronunciation : Option String
  culturalContext : Option String
  timesSeenCount : Nat
  lastSeen : Nat
  nextReview : Nat
  createdAt : Nat
deriving DecidableEq, Repr

/-- The object obtained from `JSON.parse` of the recognizer text, after
`culturalData` in `src/server.js`. Every field may be absent. The
`errorField` component models the JavaScript property `error` checked by
`culturalData.error === 'none'`. -/
structure CulturalData where
  errorField : Option String
  english : Option String
  translation : Option String
  pronunciation : Option String
  culturalContext : Option String
deriving DecidableEq, Repr

/-- Outcome of the recognizer text as seen by the endpoint: either
`JSON.parse` throws (malformed structured text) or it yields a parsed
object. -/
inductive RecognizerResponse where
  | unparsable
  | parsed (c : CulturalData)
deriving DecidableEq, Repr

/-- The HTTP response of `POST /api/scan`: the success payload
(`data` with `english`, `translation`, `pronunciation`,
`culturalContext`, `timesSeenCount`, `isReview`) or an error status
with its message. -/
inductive ScanResult where
  | ok (english : String) (translation pronunciation culturalContext : Option String)
      (timesSeenCount : Nat) (isReview : Bool)
  | err (status : Nat) (msg : String)
deriving DecidableEq, Repr

/-- JavaScript `String.prototype.toLowerCase()` as used on the
recognizer's english name: simple per-character lowercasing (ASCII
letters are the relevant range for these keys), written as a structural
map over the character list so that it evaluates by kernel reduction. -/
def toLowerStr (s : String) : String := String.mk (s.data.map Char.toLower)

/-- Mongo `Word.findOne({ userId, english })`: first document of the
collection matching both keys. -/
def findWord (store : List WordRecord) (uid key : String) : Option WordRecord :=
  store.find? (fun w => w.userId == uid && w.english == key)

/-- Mongo `existingWord.save()`: replace the first document matching the
key pair with the updated document. -/
def saveExisting (uid key : String) (w' : WordRecord) : List WordRecord → List WordRecord
  | [] => []
  | x :: xs =>
    if x.userId == uid && x.english == key then w' :: xs
    else x :: saveExisting uid key w' xs

/-- The `new Word({...})` constructor of the new-word branch
(`src/server.js` lines 240-246): only the five string fields are given,
so the schema defaults fire: `timesSeenCount = 1` and
`lastSeen = nextReview = createdAt = Date.now()`. -/
def mkNewWord (uid key : String) (c : CulturalData) (now : Nat) : WordRecord :=
  { userId := uid
    english := key
    translation := c.translation
    pronunciation := c.pronunciation
    culturalContext := c.culturalContext
    timesSeenCount := 1
    lastSeen := now
    nextReview := now
    createdAt := now }

/-- The existing-word branch of `src/server.js` (lines 229-234):
increment `timesSeenCount`, stamp `lastSeen`, set `nextReview` to
`now + timesSeenCount * 24*60*60*1000` (with the already incremented
count), and overwrite the three free-text attributes with the latest
recognizer values. -/
def updateExisting (w : WordRecord) (c : CulturalData) (now : Nat) : WordRecord :=
  { w with
    timesSeenCount := w.timesSeenCount + 1
    lastSeen := now
    nextReview := now + (w.timesSeenCount + 1) * dayMs
    translation := c.translation
    pronunciation := c.pronunciation
    culturalContext := c.culturalContext }

/-- The existing-word branch of the `src/unnamed/part_001` variant
(lines 89-97; `src/unnamed/part_000` lines 132-138 are identical):
increment, stamp, reschedule — the free-text attributes are left
untouched. -/
def updateExistingV1 (w : WordRecord) (now : Nat) : WordRecord :=
  { w with
    timesSeenCount := w.timesSeenCount + 1
    lastSeen := now
    nextReview := now + (w.timesSeenCount + 1) * dayMs }

/-- The store interaction of the scan endpoint after `findOne` returned
`found`: the upsert write plus the response payload. Kept separate from
`scan` because `findOne` and `save` are two distinct awaited storage
calls in the source (lines 221-249), which matters for interleavings. -/
def scanWrite (store : List WordRecord) (uid key : String) (c : CulturalData) (e : String)
    (now : Nat) (found : Option WordRecord) : ScanResult × List WordRecord :=
  match found with
  | some w =>
    let w' := updateExisting w c now
    (ScanResult.ok e c.translation c.pronunciation c.culturalContext w'.timesSeenCount true,
     saveExisting uid key w' store)
  | none =>
    (ScanResult.ok e c.translation c.pronunciation c.culturalContext 1 false,
     store ++ [mkNewWord uid key c now])

/-- `POST /api/scan` of `src/server.js`, store part, given the
recognizer outcome. `image`/`userId` are the request-body fields
(`userId` defaults to `"default"`); `!image` is true for an absent or
empty payload. An unparsable recognizer text returns the 500 parse
error; a parsed `{"error": "none"}` returns the 404; a parsed object
without `english` makes `culturalData.english.toLowerCase()` throw,
which the outer catch turns into the generic 500 — all before any
storage access. Otherwise the lowercased key drives the upsert. -/
def scan (store : List WordRecord) (image userId : Option String)
    (resp : RecognizerResponse) (now : Nat) : ScanResult × List WordRecord :=
  let uid := userId.getD "default"
  match image with
  | none => (ScanResult.err 400 "No image provided", store)
  | some img =>
    if img = "" then (ScanResult.err 400 "No image provided", store)
    else
      match resp with
      | RecognizerResponse.unparsable =>
        (ScanResult.err 500 "Failed to parse AI response", store)
      | RecognizerResponse.parsed c =>
        if c.errorField = some "none" then
          (ScanResult.err 404 "Item not recognized", store)
        else
          match c.english with
          | none => (ScanResult.err 500 "Failed to process image", store)
          | some e => scanWrite store uid (toLowerStr e) c e now (findWord store uid (toLowerStr e))

/-- `POST /api/scan` of the `src/unnamed/part_001` variant: same image
guard and parse handling, but there is no `error === 'none'` branch, and
the existing-word branch is `updateExistingV1` (no attribute
overwrite). -/
def scanV1 (store : List WordRecord) (image userId : Option String)
    (resp : RecognizerResponse) (now : Nat) : ScanResult × List WordRecord :=
  let uid := userId.getD "default"
  match image with
  | none => (ScanResult.err 400 "No image provided", store)
  | some img =>
    if img = "" then (ScanResult.err 400 "No image provided", store)
    else
      match resp with
      | RecognizerResponse.unparsable =>
        (ScanResult.err 500 "Failed to parse AI response", store)
      | RecognizerResponse.parsed c =>
        match c.english with
        | none => (ScanResult.err 500 "Failed to process image", store)
        | some e =>
          let key := toLowerStr e
          match findWord store uid key with
          | some w =>
            let w' := updateExistingV1 w now
            (ScanResult.ok e c.translation c.pronunciation c.culturalContext
               w'.timesSeenCount true,
             saveExisting uid key w' store)
          | none =>
            (ScanResult.ok e c.translation c.pronunciation c.culturalContext 1 false,
             store ++ [mkNewWord uid key c now])

/-- A run of `k` successful scan requests for the same image payload and
recognizer result, starting from an empty collection, observed at times
`t 1, t 2, ...`. Models repeated `POST /api/scan` calls by one user for
one recognized item. -/
def iterObserve (img : String) (userId : Option String) (c : CulturalData)
    (t : Nat → Nat) : Nat → List WordRecord
  | 0 => []
  | k + 1 =>
    (scan (iterObserve img userId c t k) (some img) userId
      (RecognizerResponse.parsed c) (t (k + 1))).2

/-- State of two in-flight scan requests for the same (user, key)
against the shared collection. Each request performs two separate
storage calls — the `findOne` (recorded in `read1`/`read2`) and then
the `save`/insert (`wrote1`/`wrote2`) — with an await point in between,
exactly as in `src/server.js` lines 221-249. -/
structure RaceState where
  store : List WordRecord
  read1 : Option (Option WordRecord)
  wrote1 : Bool
  read2 : Option (Option WordRecord)
  wrote2 : Bool
deriving DecidableEq, Repr

/-- One atomic storage step of request 1 (`i = false`) or request 2
(`i = true`): first scheduling performs the `findOne`, second performs
the write computed by `scanWrite` from that request's own earlier read,
later schedulings do nothing. -/
def stepScan (userId : Option String) (c : CulturalData) (e : String)
    (now1 now2 : Nat) (s : RaceState) (i : Bool) : RaceState :=
  let uid := userId.getD "default"
  let key := toLowerStr e
  if i then
    match s.read2, s.wrote2 with
    | none, _ => { s with read2 := some (findWord s.store uid key) }
    | some r, false =>
      { s with store := (scanWrite s.store uid key c e now2 r).2, wrote2 := true }
    | some _, true => s
  else
    match s.read1, s.wrote1 with
    | none, _ => { s with read1 := some (findWord s.store uid key) }
    | some r, false =>
      { s with store := (scanWrite s.store uid key c e now1 r).2, wrote1 := true }
    | some _, true => s

/-- Execute an interleaving of the storage steps of two concurrent scan
requests, given by the schedule of which request acts at each point. -/
def runRace (userId : Option String) (c : CulturalData) (e : String)
    (now1 now2 : Nat) (store0 : List WordRecord) (sched : List Bool) : RaceState :=
  sched.foldl (stepScan userId c e now1 now2) ⟨store0, none, false, none, false⟩

/-- Ordering on word documents used by `GET /api/review/:userId`:
ascending `nextReview` (`sort({ nextReview: 1 })`). -/
def dueLe (a b : WordRecord) : Prop := a.nextReview ≤ b.nextReview

instance : DecidableRel dueLe := fun a b => Nat.decLe a.nextReview b.nextReview

instance : IsTotal WordRecord dueLe := ⟨fun a b => Nat.le_total a.nextReview b.nextReview⟩

instance : IsTrans WordRecord dueLe := ⟨fun _ _ _ h h' => Nat.le_trans h h'⟩

/-- `GET /api/review/:userId` of `src/server.js` (lines 272-282):
`Word.find({ userId, nextReview: { $lte: now } }).sort({ nextReview: 1 })`. -/
def listDue (store : List WordRecord) (uid : String) (now : Nat) : List WordRecord :=
  List.insertionSort dueLe
    (store.filter (fun w => w.userId == uid && decide (w.nextReview ≤ now)))

/-! ### Helper lemmas -/

theorem updateExisting_userId (w : WordRecord) (c : CulturalData) (now : Nat) :
    (updateExisting w c now).userId = w.userId := rfl

theorem updateExisting_english (w : WordRecord) (c : CulturalData) (now : Nat) :
    (updateExisting w c now).english = w.english := rfl

theorem findWord_saveExisting (store : List WordRecord) (uid key : String)
    (w w' : WordRecord) (hw : findWord store uid key = some w)
    (hu : w'.userId = uid) (he : w'.english = key) :
    findWord (saveExisting uid key w' store) uid key = some w' := by
  induction store with
  | nil => simp [findWord] at hw
  | cons x xs ih =>
    by_cases h : (x.userId == uid && x.english == key) = true
    · simp only [saveExisting, h, if_true]
      simp [findWord, List.find?, hu, he]
    · simp only [saveExisting, h, if_false, Bool.false_eq_true]
      simp only [findWord, List.find?, h] at hw ⊢
      exact ih hw

theorem scan_ok_existing (store : List WordRecord) (img : String)
    (userId : Option String) (c : CulturalData) (e : String) (now : Nat) (w : WordRecord)
    (himg : img ≠ "") (herr : c.errorField ≠ some "none") (hen : c.english = some e)
    (hw : findWord store (userId.getD "default") (toLowerStr e) = some w) :
    scan store (some img) userId (RecognizerResponse.parsed c) now =
      (ScanResult.ok e c.translation c.pronunciation c.culturalContext
        (w.timesSeenCount + 1) true,
       saveExisting (userId.getD "default") (toLowerStr e) (updateExisting w c now) store) := by
  simp [scan, himg, herr, hen, scanWrite, hw, updateExisting]

theorem scan_ok_new (store : List WordRecord) (img : String)
    (userId : Option String) (c : CulturalData) (e : String) (now : Nat)
    (himg : img ≠ "") (herr : c.errorField ≠ some "none") (hen : c.english = some e)
    (hw : findWord store (userId.getD "default") (toLowerStr e) = none) :
    scan store (some img) userId (RecognizerResponse.parsed c) now =
      (ScanResult.ok e c.translation c.pronunciation c.culturalContext 1 false,
       store ++ [mkNewWord (userId.getD "default") (toLowerStr e) c now]) := by
  simp [scan, himg, herr, hen, scanWrite, hw]

theorem iterObserve_closed (img : String) (userId : Option String) (c : CulturalData)
    (e : String) (t : Nat → Nat)
    (himg : img ≠ "") (herr : c.errorField ≠ some "none") (hen : c.english = some e) :
    ∀ k : Nat, iterObserve img userId c t (k + 1) =
      [{ userId := userId.getD "default", english := toLowerStr e,
         translation := c.translation, pronunciation := c.pronunciation,
         culturalContext := c.culturalContext,
         timesSeenCount := k + 1, lastSeen := t (k + 1),
         nextReview := t (k + 1) + (if k = 0 then 0 else (k + 1) * dayMs),
         createdAt := t 1 }] := by
  intro k
  induction k with
  | zero =>
    have h0 : findWord [] (userId.getD "default") (toLowerStr e) = none := rfl
    simp only [iterObserve, scan_ok_new [] img userId c e (t 1) himg herr hen h0,
      mkNewWord, List.nil_append, if_true]
    simp
  | succ k ih =>
    have hfind : findWord
        (iterObserve img userId c t (k + 1)) (userId.getD "default") (toLowerStr e) =
        some { userId := userId.getD "default", english := toLowerStr e,
               translation := c.translation, pronunciation := c.pronunciation,
               culturalContext := c.culturalContext,
               timesSeenCount := k + 1, lastSeen := t (k + 1),
               nextReview := t (k + 1) + (if k = 0 then 0 else (k + 1) * dayMs),
               createdAt := t 1 } := by
      rw [ih]; simp [findWord, List.find?]
    rw [show iterObserve img userId c t (k + 1 + 1) =
        (scan (iterObserve img userId c t (k + 1)) (some img) userId
          (RecognizerResponse.parsed c) (t (k + 2))).2 from rfl,
      scan_ok_existing _ img userId c e (t (k + 2)) _ himg herr hen hfind, ih]
    simp [saveExisting, updateExisting]

theorem scan_success_eq_scanWrite (store : List WordRecord) (img : String)
    (userId : Option String) (c : CulturalData) (e : String) (now : Nat)
    (himg : img ≠ "") (herr : c.errorField ≠ some "none") (hen : c.english = some e) :
    scan store (some img) userId (RecognizerResponse.parsed c) now =
      scanWrite store (userId.getD "default") (toLowerStr e) c e now
        (findWord store (userId.getD "default") (toLowerStr e)) := by
  simp [scan, himg, herr, hen]

theorem runRace_seq_eq_two_scans (img : String) (userId : Option String)
    (c : CulturalData) (e : String) (now1 now2 : Nat) (store0 : List WordRecord)
    (himg : img ≠ "") (herr : c.errorField ≠ some "none") (hen : c.english = some e) :
    (runRace userId c e now1 now2 store0 [false, false, true, true]).store =
      (scan ((scan store0 (some img) userId (RecognizerResponse.parsed c) now1).2)
        (some img) userId (RecognizerResponse.parsed c) now2).2 := by
  rw [scan_success_eq_scanWrite store0 img userId c e now1 himg herr hen,
    scan_success_eq_scanWrite _ img userId c e now2 himg herr hen]
  simp [runRace, stepScan]

theorem mem_listDue (store : List WordRecord) (uid : String) (now : Nat) (r : WordRecord) :
    r ∈ listDue store uid now ↔ r ∈ store ∧ r.userId = uid ∧ r.nextReview ≤ now := by
  unfold listDue
  rw [(List.perm_insertionSort dueLe _).mem_iff]
  simp [List.mem_filter, and_assoc]

theorem pairwise_listDue (store : List WordRecord) (uid : String) (now : Nat) :
    (listDue store uid now).Pairwise dueLe :=
  List.sorted_insertionSort dueLe _

theorem findWord_props (store : List WordRecord) (uid key : String) (w : WordRecord)
    (hw : findWord store uid key = some w) : w.userId = uid ∧ w.english = key := by
  unfold findWord at hw
  have h := List.find?_some hw
  simpa using h

theorem scanV1_ok_existing (store : List WordRecord) (img : String)
    (userId : Option String) (c : CulturalData) (e : String) (now : Nat) (w : WordRecord)
    (himg : img ≠ "") (hen : c.english = some e)
    (hw : findWord store (userId.getD "default") (toLowerStr e) = some w) :
    scanV1 store (some img) userId (RecognizerResponse.parsed c) now =
      (ScanResult.ok e c.translation c.pronunciation c.culturalContext
        (w.timesSeenCount + 1) true,
       saveExisting (userId.getD "default") (toLowerStr e) (updateExistingV1 w now) store) := by
  simp [scanV1, himg, hen, hw, updateExistingV1]

/-! ### Concrete fixtures for witnesses and counterexamples -/

/-- A concrete parsed recognizer payload. -/
def cMoon : CulturalData :=
  { errorField := none, english := some "Mooncake", translation := some "yuebing",
    pronunciation := some "yb", culturalContext := some "note" }

/-- A concrete parsed payload with attribute values marked old. -/
def cOld : CulturalData :=
  { errorField := none, english := some "Mooncake", translation := some "oldT",
    pronunciation := some "oldP", culturalContext := some "oldC" }

/-- A concrete parsed payload with fresh attribute values. -/
def cNew : CulturalData :=
  { errorField := none, english := some "Mooncake", translation := some "newT",
    pronunciation := some "newP", culturalContext := some "newC" }

/-- The no-match signal of the recognizer: a parsed payload whose
`error` property is the string `none` and nothing else. -/
def cNone : CulturalData :=
  { errorField := some "none", english := none, translation := none,
    pronunciation := none, culturalContext := none }

/-- A concrete payload naming the same item in upper case. -/
def cMOON : CulturalData :=
  { errorField := none, english := some "MOONCAKE", translation := some "yuebing2",
    pronunciation := some "yb2", culturalContext := some "note2" }

/-- A record due one hour before the query time 7200000. -/
def wPast : WordRecord :=
  { userId := "u", english := "a", translation := none, pronunciation := none,
    culturalContext := none, timesSeenCount := 1, lastSeen := 0,
    nextReview := 3600000, createdAt := 0 }

/-- A record due exactly at the query time 7200000. -/
def wNow : WordRecord :=
  { userId := "u", english := "b", translation := none, pronunciation := none,
    culturalContext := none, timesSeenCount := 1, lastSeen := 0,
    nextReview := 7200000, createdAt := 0 }

/-- A record due one hour after the query time 7200000. -/
def wFuture : WordRecord :=
  { userId := "u", english := "c", translation := none, pronunciation := none,
    culturalContext := none, timesSeenCount := 1, lastSeen := 0,
    nextReview := 10800000, createdAt := 0 }

/-! ### Claim theorems -/

/-- Claim C4 (confirmed): when the recognizer signals no match (a parsed
payload whose `error` property is the string `none`), the scan request
answers with the 404 `Item not recognized` error and the collection is
returned unchanged — the 404 branch runs before any storage access. -/
theorem scan_not_recognized_404 (store : List WordRecord) (img : String)
    (userId : Option String) (c : CulturalData) (now : Nat)
    (himg : img ≠ "") (herr : c.errorField = some "none") :
    scan store (some img) userId (RecognizerResponse.parsed c) now =
      (ScanResult.err 404 "Item not recognized", store) := by
  simp [scan, himg, herr]

/-- Witness for C4: the no-match payload at a concrete store. -/
theorem scan_not_recognized_404_witness :
    scan [wPast] (some "i") (some "u") (RecognizerResponse.parsed cNone) 5 =
      (ScanResult.err 404 "Item not recognized", [wPast]) :=
  scan_not_recognized_404 [wPast] "i" (some "u") cNone 5 (by decide) (by decide)

/-- Claim C5 (confirmed): a recognizer output that cannot be parsed into
the expected shape fails with a 500 error and leaves the store
untouched — both for malformed structured text (`JSON.parse` throws,
500 `Failed to parse AI response`) and for a parseable payload missing
the english name (the `toLowerCase` call throws and the outer catch
answers 500 `Failed to process image`); in each case the error is
produced before any storage access. -/
theorem scan_invalid_recognizer_500 (store : List WordRecord) (img : String)
    (userId : Option String) (c : CulturalData) (now : Nat)
    (himg : img ≠ "") (herr : c.errorField ≠ some "none") (hen : c.english = none) :
    (scan store (some img) userId RecognizerResponse.unparsable now =
      (ScanResult.err 500 "Failed to parse AI response", store)) ∧
    (scan store (some img) userId (RecognizerResponse.parsed c) now =
      (ScanResult.err 500 "Failed to process image", store)) := by
  constructor
  · simp [scan, himg]
  · simp [scan, himg, herr, hen]

/-- Witness for C5: malformed text and a payload with no english name,
at a concrete store. -/
theorem scan_invalid_recognizer_500_witness :
    (scan [wPast] (some "i") (some "u") RecognizerResponse.unparsable 5 =
      (ScanResult.err 500 "Failed to parse AI response", [wPast])) ∧
    (scan [wPast] (some "i") (some "u")
        (RecognizerResponse.parsed
          { errorField := none, english := none, translation := none,
            pronunciation := none, culturalContext := none }) 5 =
      (ScanResult.err 500 "Failed to process image", [wPast])) :=
  scan_invalid_recognizer_500 [wPast] "i" (some "u")
    { errorField := none, english := none, translation := none,
      pronunciation := none, culturalContext := none } 5
    (by decide) (by decide) rfl

/-- Claim C8 (confirmed): a scan request whose image payload is absent,
or present but the empty string (both falsy under the `!image` guard),
answers with the 400 `No image provided` error and performs no store
mutation, whatever the recognizer would have returned. -/
theorem scan_no_image_400 (store : List WordRecord) (userId : Option String)
    (resp : RecognizerResponse) (now : Nat) :
    (scan store none userId resp now =
      (ScanResult.err 400 "No image provided", store)) ∧
    (scan store (some "") userId resp now =
      (ScanResult.err 400 "No image provided", store)) := by
  exact ⟨rfl, by simp [scan]⟩

/-- Witness for C8: absent and empty image at a concrete store. -/
theorem scan_no_image_400_witness :
    (scan [wPast] none (some "u") RecognizerResponse.unparsable 5 =
      (ScanResult.err 400 "No image provided", [wPast])) ∧
    (scan [wPast] (some "") (some "u") RecognizerResponse.unparsable 5 =
      (ScanResult.err 400 "No image provided", [wPast])) :=
  scan_no_image_400 [wPast] (some "u") RecognizerResponse.unparsable 5

/-- Claim C6 (code bug): the upsert is `findOne` followed by `save`,
two separate storage calls, not an atomic conditional upsert. With two
concurrent observations of the same (user, key) from `timesSeenCount =
1`, the interleaving read-read-write-write commits `timesSeenCount = 2`
(a lost increment), while the serialized schedule reaches 3; and from
an empty store the same interleaving inserts two records for the pair.
This contradicts the claimed always-3, one-record outcome. -/
theorem scan_race_lost_update :
    ((runRace (some "u") cMoon "Mooncake" 10 20
        [mkNewWord "u" "mooncake" cMoon 0] [false, true, false, true]).store.map
      (fun w => w.timesSeenCount) = [2]) ∧
    ((runRace (some "u") cMoon "Mooncake" 10 20
        [mkNewWord "u" "mooncake" cMoon 0] [false, false, true, true]).store.map
      (fun w => w.timesSeenCount) = [3]) ∧
    (runRace (some "u") cMoon "Mooncake" 10 20 [] [false, true, false, true]).store.length = 2 := by
  decide

/-- Counterexample for C1: on the very first observation the new-word
branch passes no dates to the constructor, so the schema default makes
`nextReview` equal to `lastSeen` — the gap is 0 milliseconds, not the
claimed one day. -/
theorem scan_first_next_review_not_one_day :
    ((scan [] (some "i") (some "u") (RecognizerResponse.parsed cMoon) 5).2.map
      (fun w => w.nextReview - w.lastSeen)) ≠ [dayMs] := by
  decide

/-- Claim C1 (amended): the first observation creates the record with
`timesSeen = 1` and `createdAt = lastSeenAt = nextReviewAt = now` (the
schema defaults; there is no one-day offset), and for every k ≥ 2 the
k-th observation leaves `nextReviewAt - lastSeenAt` at exactly k days. -/
theorem scan_first_observation_defaults_and_interval
    (img : String) (userId : Option String) (c : CulturalData) (e : String)
    (t : Nat → Nat) (himg : img ≠ "") (herr : c.errorField ≠ some "none")
    (hen : c.english = some e) :
    ((iterObserve img userId c t 1).map
        (fun w => (w.timesSeenCount, w.createdAt, w.lastSeen, w.nextReview)) =
      [(1, t 1, t 1, t 1)]) ∧
    ∀ k : Nat, 2 ≤ k →
      (iterObserve img userId c t k).map (fun w => w.nextReview - w.lastSeen) =
        [k * dayMs] := by
  constructor
  · rw [iterObserve_closed img userId c e t himg herr hen 0]
    simp
  · intro k hk
    obtain ⟨m, rfl⟩ : ∃ m, k = m + 2 := ⟨k - 2, by omega⟩
    rw [iterObserve_closed img userId c e t himg herr hen (m + 1)]
    simp

/-- Witness for C1 (amended): three observations at times 100, 200,
300. -/
theorem scan_first_observation_defaults_and_interval_witness :
    ((iterObserve "i" (some "u") cMoon (fun k => 100 * k) 1).map
        (fun w => (w.timesSeenCount, w.createdAt, w.lastSeen, w.nextReview)) =
      [(1, 100, 100, 100)]) ∧
    (iterObserve "i" (some "u") cMoon (fun k => 100 * k) 3).map
        (fun w => w.nextReview - w.lastSeen) = [3 * dayMs] :=
  ⟨(scan_first_observation_defaults_and_interval "i" (some "u") cMoon "Mooncake"
      (fun k => 100 * k) (by decide) (by decide) (by decide)).1,
   (scan_first_observation_defaults_and_interval "i" (some "u") cMoon "Mooncake"
      (fun k => 100 * k) (by decide) (by decide) (by decide)).2 3 (by decide)⟩

/-- Claim C2 (confirmed): re-observing an existing record with
`timesSeen = n` answers with count n + 1 and commits the record with
`timesSeen = n + 1`, `lastSeen = now` and `nextReview = now + (n + 1)`
days; and a run of N sequential observations of the same (user, key)
from an empty store ends with a single record whose `timesSeen` is
exactly N. -/
theorem scan_observation_increments (store : List WordRecord) (img : String)
    (userId : Option String) (c : CulturalData) (e : String) (now : Nat)
    (w : WordRecord) (t : Nat → Nat)
    (himg : img ≠ "") (herr : c.errorField ≠ some "none") (hen : c.english = some e)
    (hw : findWord store (userId.getD "default") (toLowerStr e) = some w) :
    ((scan store (some img) userId (RecognizerResponse.parsed c) now).1 =
      ScanResult.ok e c.translation c.pronunciation c.culturalContext
        (w.timesSeenCount + 1) true) ∧
    (findWord (scan store (some img) userId (RecognizerResponse.parsed c) now).2
        (userId.getD "default") (toLowerStr e) = some (updateExisting w c now)) ∧
    (updateExisting w c now).timesSeenCount = w.timesSeenCount + 1 ∧
    (updateExisting w c now).lastSeen = now ∧
    (updateExisting w c now).nextReview = now + (w.timesSeenCount + 1) * dayMs ∧
    ∀ N : Nat, 1 ≤ N →
      (iterObserve img userId c t N).map (fun x => x.timesSeenCount) = [N] := by
  obtain ⟨hu, hk⟩ := findWord_props store _ _ w hw
  refine ⟨?_, ?_, rfl, rfl, rfl, ?_⟩
  · rw [scan_ok_existing store img userId c e now w himg herr hen hw]
  · rw [scan_ok_existing store img userId c e now w himg herr hen hw]
    exact findWord_saveExisting store _ _ w _ hw
      (by rw [updateExisting_userId, hu]) (by rw [updateExisting_english, hk])
  · intro N hN
    obtain ⟨m, rfl⟩ : ∃ m, N = m + 1 := ⟨N - 1, by omega⟩
    rw [iterObserve_closed img userId c e t himg herr hen m]
    simp

/-- Witness for C2: a second observation of a concrete record and a run
of three observations. -/
theorem scan_observation_increments_witness :
    ((scan [mkNewWord "u" "mooncake" cMoon 0] (some "i") (some "u")
        (RecognizerResponse.parsed cMoon) 7).1 =
      ScanResult.ok "Mooncake" (some "yuebing") (some "yb") (some "note") 2 true) ∧
    (iterObserve "i" (some "u") cMoon (fun k => 100 * k) 3).map
      (fun x => x.timesSeenCount) = [3] :=
  ⟨(scan_observation_increments [mkNewWord "u" "mooncake" cMoon 0] "i" (some "u")
      cMoon "Mooncake" 7 (mkNewWord "u" "mooncake" cMoon 0) (fun k => 100 * k)
      (by decide) (by decide) (by decide) (by decide)).1,
   (scan_observation_increments [mkNewWord "u" "mooncake" cMoon 0] "i" (some "u")
      cMoon "Mooncake" 7 (mkNewWord "u" "mooncake" cMoon 0) (fun k => 100 * k)
      (by decide) (by decide) (by decide) (by decide)).2.2.2.2.2 3 (by decide)⟩

/-- Counterexample for C3: in the `src/unnamed/part_001` variant a
re-observation does not overwrite the stored attributes — re-scanning
a record whose stored translation is `oldT` with a recognizer payload
carrying `newT` leaves `oldT` in the store. -/
theorem scanV1_rescan_keeps_attrs_cex :
    ((scanV1 [mkNewWord "u" "mooncake" cOld 0] (some "i") (some "u")
        (RecognizerResponse.parsed cNew) 5).2.map (fun w => w.translation)) ≠
      [cNew.translation] := by
  decide

/-- Claim C3 (amended): on re-observation the main server
(`src/server.js`) overwrites `translation`, `pronunciation` and
`culturalNote` with the recognizer's latest values, but the
`src/unnamed/part_001` variant (and the identical branch of
`src/unnamed/part_000`) leaves all three attributes unchanged,
updating only the seen count and the schedule fields. -/
theorem rescan_attrs_variant_split (store : List WordRecord) (img : String)
    (userId : Option String) (c : CulturalData) (e : String) (now : Nat)
    (w : WordRecord)
    (himg : img ≠ "") (herr : c.errorField ≠ some "none") (hen : c.english = some e)
    (hw : findWord store (userId.getD "default") (toLowerStr e) = some w) :
    (findWord (scan store (some img) userId (RecognizerResponse.parsed c) now).2
        (userId.getD "default") (toLowerStr e) = some (updateExisting w c now) ∧
      (updateExisting w c now).translation = c.translation ∧
      (updateExisting w c now).pronunciation = c.pronunciation ∧
      (updateExisting w c now).culturalContext = c.culturalContext) ∧
    (findWord (scanV1 store (some img) userId (RecognizerResponse.parsed c) now).2
        (userId.getD "default") (toLowerStr e) = some (updateExistingV1 w now) ∧
      (updateExistingV1 w now).translation = w.translation ∧
      (updateExistingV1 w now).pronunciation = w.pronunciation ∧
      (updateExistingV1 w now).culturalContext = w.culturalContext) := by
  obtain ⟨hu, hk⟩ := findWord_props store _ _ w hw
  constructor
  · refine ⟨?_, rfl, rfl, rfl⟩
    rw [scan_ok_existing store img userId c e now w himg herr hen hw]
    exact findWord_saveExisting store _ _ w _ hw
      (by rw [updateExisting_userId, hu]) (by rw [updateExisting_english, hk])
  · refine ⟨?_, rfl, rfl, rfl⟩
    rw [scanV1_ok_existing store img userId c e now w himg hen hw]
    exact findWord_saveExisting store _ _ w _ hw
      (by rw [show (updateExistingV1 w now).userId = w.userId from rfl, hu])
      (by rw [show (updateExistingV1 w now).english = w.english from rfl, hk])

/-- Witness for C3 (amended): re-scanning a concrete stored record with
fresh attribute values; the main server commits the fresh values, the
variant keeps the old ones. -/
theorem rescan_attrs_variant_split_witness :
    (findWord (scan [mkNewWord "u" "mooncake" cOld 0] (some "i") (some "u")
        (RecognizerResponse.parsed cNew) 5).2 "u" (toLowerStr "Mooncake") =
      some (updateExisting (mkNewWord "u" "mooncake" cOld 0) cNew 5)) ∧
    (findWord (scanV1 [mkNewWord "u" "mooncake" cOld 0] (some "i") (some "u")
        (RecognizerResponse.parsed cNew) 5).2 "u" (toLowerStr "Mooncake") =
      some (updateExistingV1 (mkNewWord "u" "mooncake" cOld 0) 5)) :=
  ⟨(rescan_attrs_variant_split [mkNewWord "u" "mooncake" cOld 0] "i"
      (some "u") cNew "Mooncake" 5 (mkNewWord "u" "mooncake" cOld 0)
      (by decide) (by decide) (by decide) (by decide)).1.1,
   (rescan_attrs_variant_split [mkNewWord "u" "mooncake" cOld 0] "i"
      (some "u") cNew "Mooncake" 5 (mkNewWord "u" "mooncake" cOld 0)
      (by decide) (by decide) (by decide) (by decide)).2.1⟩

/-- Claim C7 (confirmed): the due query returns exactly the user's
records with `nextReview ≤ now` (membership characterization), the
output is sorted by `nextReview` ascending, and on the concrete
three-record scenario at one hour before, at, and one hour after the
query time it returns exactly the first two, earliest first. -/
theorem listDue_correct :
    (∀ (store : List WordRecord) (uid : String) (now : Nat) (r : WordRecord),
      r ∈ listDue store uid now ↔ r ∈ store ∧ r.userId = uid ∧ r.nextReview ≤ now) ∧
    (∀ (store : List WordRecord) (uid : String) (now : Nat),
      (listDue store uid now).Pairwise dueLe) ∧
    listDue [wFuture, wNow, wPast] "u" 7200000 = [wPast, wNow] :=
  ⟨mem_listDue, pairwise_listDue, by decide⟩

/-- Witness for C7: the overdue record is a member of the concrete due
list. -/
theorem listDue_correct_witness :
    wPast ∈ listDue [wFuture, wNow, wPast] "u" 7200000 :=
  (listDue_correct.1 [wFuture, wNow, wPast] "u" 7200000 wPast).mpr
    ⟨by decide, rfl, by decide⟩

/-- Claim C9 (confirmed): the record created by a first observation has
`nextReview = createdAt = lastSeen = now` from the schema defaults, so
it satisfies the due condition for every query time from `now` on and
appears in the due list immediately after being learned. -/
theorem first_scan_immediately_due (store : List WordRecord) (img : String)
    (userId : Option String) (c : CulturalData) (e : String) (now tq : Nat)
    (himg : img ≠ "") (herr : c.errorField ≠ some "none") (hen : c.english = some e)
    (hw : findWord store (userId.getD "default") (toLowerStr e) = none)
    (htq : now ≤ tq) :
    ((scan store (some img) userId (RecognizerResponse.parsed c) now).2 =
      store ++ [mkNewWord (userId.getD "default") (toLowerStr e) c now]) ∧
    (mkNewWord (userId.getD "default") (toLowerStr e) c now).nextReview = now ∧
    (mkNewWord (userId.getD "default") (toLowerStr e) c now).createdAt = now ∧
    (mkNewWord (userId.getD "default") (toLowerStr e) c now).lastSeen = now ∧
    mkNewWord (userId.getD "default") (toLowerStr e) c now ∈
      listDue (scan store (some img) userId (RecognizerResponse.parsed c) now).2
        (userId.getD "default") tq := by
  have h2 : (scan store (some img) userId (RecognizerResponse.parsed c) now).2 =
      store ++ [mkNewWord (userId.getD "default") (toLowerStr e) c now] := by
    rw [scan_ok_new store img userId c e now himg herr hen hw]
  refine ⟨h2, rfl, rfl, rfl, ?_⟩
  rw [h2]
  exact (mem_listDue _ _ _ _).mpr
    ⟨List.mem_append_right store (List.mem_singleton_self _), rfl, htq⟩

/-- Witness for C9: a first scan at time 5 whose record is due at the
later query time 9. -/
theorem first_scan_immediately_due_witness :
    mkNewWord "u" (toLowerStr "Mooncake") cMoon 5 ∈
      listDue (scan [] (some "i") (some "u")
        (RecognizerResponse.parsed cMoon) 5).2 "u" 9 :=
  (first_scan_immediately_due [] "i" (some "u") cMoon "Mooncake" 5 9
    (by decide) (by decide) (by decide) rfl (by decide)).2.2.2.2

/-- Claim C10 (confirmed): a first observation stores the record under
the lowercased english name while the scan response keeps the
recognizer's original casing; and a second observation whose english
name differs only in letter case hits the same record — the store ends
with a single record, keyed lowercase, with `timesSeen = 2`, rather
than two records. -/
theorem scan_lowercase_key_original_casing
    (store : List WordRecord) (img : String) (userId : Option String)
    (c cTwo : CulturalData) (e eTwo : String) (now tTwo : Nat)
    (himg : img ≠ "") (herr : c.errorField ≠ some "none") (hen : c.english = some e)
    (herr2 : cTwo.errorField ≠ some "none") (hen2 : cTwo.english = some eTwo)
    (hw : findWord store (userId.getD "default") (toLowerStr e) = none)
    (hkey : toLowerStr eTwo = toLowerStr e) :
    ((scan store (some img) userId (RecognizerResponse.parsed c) now).1 =
      ScanResult.ok e c.translation c.pronunciation c.culturalContext 1 false) ∧
    ((scan store (some img) userId (RecognizerResponse.parsed c) now).2 =
      store ++ [mkNewWord (userId.getD "default") (toLowerStr e) c now]) ∧
    ((mkNewWord (userId.getD "default") (toLowerStr e) c now).english =
      toLowerStr e) ∧
    ((scan ((scan [] (some img) userId (RecognizerResponse.parsed c) now).2)
        (some img) userId (RecognizerResponse.parsed cTwo) tTwo).2.map
      (fun w => (w.english, w.timesSeenCount)) = [(toLowerStr e, 2)]) := by
  have h1 : (scan [] (some img) userId (RecognizerResponse.parsed c) now).2 =
      [mkNewWord (userId.getD "default") (toLowerStr e) c now] := by
    rw [scan_ok_new [] img userId c e now himg herr hen rfl]
    rfl
  have hfind2 : findWord [mkNewWord (userId.getD "default") (toLowerStr e) c now]
      (userId.getD "default") (toLowerStr eTwo) =
      some (mkNewWord (userId.getD "default") (toLowerStr e) c now) := by
    rw [hkey]
    simp [findWord, List.find?, mkNewWord]
  refine ⟨?_, ?_, rfl, ?_⟩
  · rw [scan_ok_new store img userId c e now himg herr hen hw]
  · rw [scan_ok_new store img userId c e now himg herr hen hw]
  · rw [h1, scan_ok_existing _ img userId cTwo eTwo tTwo _ himg herr2 hen2 hfind2]
    simp [saveExisting, updateExisting, mkNewWord, hkey]

/-- Witness for C10: observing Mooncake then MOONCAKE merges into one
lowercase-keyed record seen twice, and the first response keeps the
original casing. -/
theorem scan_lowercase_key_original_casing_witness :
    ((scan [] (some "i") (some "u") (RecognizerResponse.parsed cMoon) 5).1 =
      ScanResult.ok "Mooncake" (some "yuebing") (some "yb") (some "note") 1 false) ∧
    ((scan ((scan [] (some "i") (some "u")
          (RecognizerResponse.parsed cMoon) 5).2)
        (some "i") (some "u") (RecognizerResponse.parsed cMOON) 6).2.map
      (fun w => (w.english, w.timesSeenCount)) = [(toLowerStr "Mooncake", 2)]) :=
  ⟨(scan_lowercase_key_original_casing [] "i" (some "u") cMoon cMOON
      "Mooncake" "MOONCAKE" 5 6 (by decide) (by decide) (by decide)
      (by decide) (by decide) rfl (by decide)).1,
   (scan_lowercase_key_original_casing [] "i" (some "u") cMoon cMOON
      "Mooncake" "MOONCAKE" 5 6 (by decide) (by decide) (by decide)
      (by decide) (by decide) rfl (by decide)).2.2.2⟩

end IdentityBackend
